import Mathlib

/-!
Verification of the MyNilla arbitrage-bot core against its specification.

Each JavaScript function that a claim depends on is shallowly embedded as a
Lean definition.  JavaScript `BigInt` values are modelled as `Int` (or `Nat`
when the source only ever holds non-negative quantities), JavaScript floating
point numbers as `Rat`, and fallible code as `Except`/`Option`.  External
inputs (RPC fee data, token prices, aggregator route responses) are passed in
as explicit parameters or oracle functions, mirroring the values the source
reads from its environment at the corresponding program points.
-/

namespace MyNilla

/-! ### String helpers

`String.includes` from JavaScript, written out over character lists. -/

def listLeads : List Char → List Char → Bool
  | [], _ => true
  | _ :: _, [] => false
  | a :: as, b :: bs => a == b && listLeads as bs

def listHasSub (needle : List Char) : List Char → Bool
  | [] => needle.isEmpty
  | c :: cs => listLeads needle (c :: cs) || listHasSub needle cs

/-- JavaScript `hay.includes(needle)`. -/
def strIncludes (hay needle : String) : Bool :=
  listHasSub needle.toList hay.toList

/-! ### ProfitCalculator.estimateTransactionGas (src/src/profitCalculator.js)

A hop as seen by the gas estimator: a DEX name and an optional aggregator id
(`hop.aggregator` may be absent on a hop object, hence `Option`). -/

structure PCHop where
  dex : String
  aggregator : Option String
deriving DecidableEq, Repr

/-- `ProfitCalculator.estimateSwapGas` (profitCalculator.js lines 166-180):
per-hop swap gas by routing source; `hop.dex.includes('Uniswap')` is the
third branch. -/
def estimateSwapGas (hop : PCHop) : Nat :=
  if hop.dex = "Aerodrome" then 150000
  else if hop.dex = "PancakeSwap" then 120000
  else if strIncludes hop.dex "Uniswap" then 180000
  else if hop.aggregator = some "odos" then 200000
  else if hop.aggregator = some "oneInch" then 220000
  else 150000

/-- `ProfitCalculator.estimateTransactionGas` (profitCalculator.js lines
146-164): `baseGas` starts at 21000 and gains 100000 on the hop at index 0;
`swapGas` accumulates `estimateSwapGas`; the total
`(baseGas + swapGas + 250000) * 150n / 100n` uses BigInt division. -/
def estimateTransactionGas (path : List PCHop) : Nat :=
  let acc := path.enum.foldl
    (fun (acc : Nat × Nat) x =>
      let baseGas := if x.1 = 0 then acc.1 + 100000 else acc.1
      (baseGas, acc.2 + estimateSwapGas x.2))
    (21000, 0)
  (acc.1 + acc.2 + 250000) * 150 / 100

/-! ### TransactionBuilder (src/src/transactionBuilder.js)

Fee fields of EIP-1559 transactions are BigInt wei amounts, modelled as
`Nat`.  `ethers.parseUnits(g.toString(), 'gwei')` for a whole number `g`
is `g * 10^9`. -/

def gweiFactor : Nat := 1000000000

/-- `TransactionBuilder.getOptimalPriorityFee` (lines 137-162): sort the
flattened `eth_feeHistory` rewards ascending, take the entry at index
`⌊n / 2⌋`, scale by `120n / 100n` and clamp to 2 gwei.  When the reward
list is empty, `sortedFees[medianIndex]` is `undefined` and the BigInt
arithmetic on it throws, so the catch branch returns 1.5 gwei. -/
def getOptimalPriorityFee (rewards : List Nat) : Nat :=
  let sortedFees := rewards.mergeSort (· ≤ ·)
  match sortedFees.get? (sortedFees.length / 2) with
  | none => 1500000000
  | some medianFee =>
    let optimalFee := medianFee * 120 / 100
    let maxPriority := 2 * gweiFactor
    if optimalFee > maxPriority then maxPriority else optimalFee

/-- `TransactionBuilder.getOptimalMaxFee` (lines 124-135):
`baseFee + priorityFee` clamped to `parseUnits(maxGasPriceGwei, 'gwei')`.
`feeData.gasPrice || 0n` maps `null`/`0n` to `0n`. -/
def getOptimalMaxFee (gasPrice : Option Nat) (rewards : List Nat)
    (maxGasPriceGwei : Nat) : Nat :=
  let baseFee := gasPrice.getD 0
  let maxPriorityFee := getOptimalPriorityFee rewards
  let maxFee := baseFee + maxPriorityFee
  let maxAllowed := maxGasPriceGwei * gweiFactor
  if maxFee > maxAllowed then maxAllowed else maxFee

structure TxData where
  toAddr : String
  value : Nat
  nonce : Nat
  gasLimit : Nat
  maxFeePerGas : Nat
  maxPriorityFeePerGas : Nat
deriving DecidableEq, Repr

/-- `TransactionBuilder.buildArbitrageTransaction` (lines 19-43): the tx it
signs carries `maxFeePerGas` from `getOptimalMaxFee` and
`maxPriorityFeePerGas` from `getOptimalPriorityFee`. -/
def buildArbitrageTransaction (contractAddr : String) (nonce gasLimit : Nat)
    (gasPrice : Option Nat) (rewards : List Nat)
    (maxGasPriceGwei : Nat) : TxData :=
  { toAddr := contractAddr
    value := 0
    nonce := nonce
    gasLimit := gasLimit
    maxFeePerGas := getOptimalMaxFee gasPrice rewards maxGasPriceGwei
    maxPriorityFeePerGas := getOptimalPriorityFee rewards }

/-- `TransactionBuilder.buildFlashLoanTransaction` (lines 45-74): identical
fee wiring with a fixed 500000 gas limit. -/
def buildFlashLoanTransaction (poolAddress : String) (nonce : Nat)
    (gasPrice : Option Nat) (rewards : List Nat)
    (maxGasPriceGwei : Nat) : TxData :=
  { toAddr := poolAddress
    value := 0
    nonce := nonce
    gasLimit := 500000
    maxFeePerGas := getOptimalMaxFee gasPrice rewards maxGasPriceGwei
    maxPriorityFeePerGas := getOptimalPriorityFee rewards }

/-- JavaScript `bigint * number`: multiplying a BigInt by a Number (the
multipliers `1.2` / `1.5` in `cancelTransaction` / `speedUpTransaction`)
raises a TypeError. -/
def jsMulBigIntNumber (_a : Nat) (_b : ℚ) : Except String Nat :=
  .error "TypeError: Cannot mix BigInt and other types, use explicit conversions"

/-- `TransactionBuilder.cancelTransaction` (lines 228-251): looks up the
pending tx, then builds a same-nonce no-op whose fees are the old fees
times `newGasPriceMultiplier`.  The old fees are BigInt and the multiplier
is a Number, so the fee computation throws before anything is signed. -/
def cancelTransaction (pendingTxs : List (String × TxData))
    (walletAddr : String) (oldTxHash : String)
    (newGasPriceMultiplier : ℚ) : Except String TxData := do
  match (pendingTxs.find? (fun p => p.1 = oldTxHash)).map (·.2) with
  | none => throw "Transaction not found"
  | some oldTx =>
    let fee ← jsMulBigIntNumber oldTx.maxFeePerGas newGasPriceMultiplier
    let pfee ← jsMulBigIntNumber oldTx.maxPriorityFeePerGas newGasPriceMultiplier
    pure
      { toAddr := walletAddr
        value := 0
        nonce := oldTx.nonce
        gasLimit := 21000
        maxFeePerGas := fee
        maxPriorityFeePerGas := pfee }

/-- `TransactionBuilder.speedUpTransaction` (lines 253-275): spreads the old
tx data and overwrites both fee fields with the old values times
`newGasPriceMultiplier`; the same BigInt-times-Number computation throws. -/
def speedUpTransaction (pendingTxs : List (String × TxData))
    (oldTxHash : String) (newGasPriceMultiplier : ℚ) :
    Except String TxData := do
  match (pendingTxs.find? (fun p => p.1 = oldTxHash)).map (·.2) with
  | none => throw "Transaction not found"
  | some oldTx =>
    let fee ← jsMulBigIntNumber oldTx.maxFeePerGas newGasPriceMultiplier
    let pfee ← jsMulBigIntNumber oldTx.maxPriorityFeePerGas newGasPriceMultiplier
    pure { oldTx with maxFeePerGas := fee, maxPriorityFeePerGas := pfee }

/-! ### ProfitCalculator simulation (src/src/profitCalculator.js) -/

/-- JavaScript `x || d` on an optional number (both `undefined` and `0` fall
through to the default). -/
def jsOrQ (v : Option ℚ) (d : ℚ) : ℚ :=
  match v with
  | some x => if x = 0 then d else x
  | none => d

/-- JavaScript `x || d` on an optional BigInt. -/
def jsOrN (v : Option Nat) (d : Nat) : Nat :=
  match v with
  | some x => if x = 0 then d else x
  | none => d

structure FeeData where
  gasPrice : Option Nat
  maxFeePerGas : Option Nat
deriving DecidableEq, Repr

/-- `feeData.gasPrice || feeData.maxFeePerGas || 0n`. -/
def feeGasPrice (fd : FeeData) : Nat :=
  jsOrN fd.gasPrice (jsOrN fd.maxFeePerGas 0)

/-- Output of `ProfitCalculator.calculateExpectedProfit` (lines 435-466). -/
structure ProfitDetails where
  grossProfitUSD : ℚ
  flashLoanCostUSD : ℚ
  slippageBufferUSD : ℚ
  inputValueUSD : ℚ
  outputValueUSD : ℚ
deriving DecidableEq, Repr

structure LocalSimResult where
  success : Bool
  gasUsed : Nat
  gasCostUSD : ℚ
  netProfitUSD : ℚ
deriving DecidableEq, Repr

/-- `ProfitCalculator.performLocalSimulation` (lines 250-281): sums the
per-hop gas estimates, prices them at the network gas price and the native
asset's USD price (`ethPrice || 1800`), and reports
`success: netProfitUSD > 0` with
`netProfitUSD = grossProfitUSD - gasCostUSD - flashLoanCostUSD`. -/
def performLocalSimulation (hopGasEstimates : List Nat) (feeData : FeeData)
    (ethPrice : Option ℚ) (profit : ProfitDetails) : LocalSimResult :=
  let totalGas := hopGasEstimates.sum
  let gasPrice := feeGasPrice feeData
  let gasCostWei := totalGas * gasPrice
  let gasCostETH : ℚ := (gasCostWei : ℚ) / 10 ^ 18
  let gasCostUSD := gasCostETH * jsOrQ ethPrice 1800
  let netProfitUSD := profit.grossProfitUSD - gasCostUSD - profit.flashLoanCostUSD
  { success := decide (netProfitUSD > 0)
    gasUsed := totalGas
    gasCostUSD := gasCostUSD
    netProfitUSD := netProfitUSD }

/-- `ProfitCalculator.performTenderlySimulation` (lines 335-390): without a
`TENDERLY_API_KEY` it throws immediately; with one it reaches
`axios.post(...)`, but profitCalculator.js never imports `axios`, so that
expression raises a ReferenceError before any response is handled.  Either
way the method throws and never returns a result. -/
def performTenderlySimulation (tenderlyApiKey : Option String) :
    Except String LocalSimResult :=
  match tenderlyApiKey with
  | none => .error "Tenderly API key not configured"
  | some _ => .error "ReferenceError: axios is not defined"

/-- `ProfitCalculator.simulateTransaction` (lines 217-248): in `testMode`
run the local simulation; otherwise try the Tenderly simulation and fall
back to the local simulation when it throws. -/
def simulateTransaction (testMode : Bool) (tenderlyApiKey : Option String)
    (hopGasEstimates : List Nat) (feeData : FeeData) (ethPrice : Option ℚ)
    (profit : ProfitDetails) : LocalSimResult :=
  if testMode then
    performLocalSimulation hopGasEstimates feeData ethPrice profit
  else
    match performTenderlySimulation tenderlyApiKey with
    | .ok r => r
    | .error _ => performLocalSimulation hopGasEstimates feeData ethPrice profit

/-! ### RPCManager (src/src/rpcManager.js)

An endpoint's health state: `isHealthy` flag and consecutive-failure
counter, as held on each entry of `this.nodes`. -/

structure RPCNode where
  id : Nat
  isHealthy : Bool
  failureCount : Nat
deriving DecidableEq, Repr

/-- `RPCManager.executeWithLimiters` (lines 75-87): a successful call resets
`failureCount` to 0; a failed call increments it and, at 3 or more, marks
the endpoint unhealthy (`markUnhealthy`). -/
def executeWithLimiters (node : RPCNode) (callSucceeds : Bool) : RPCNode :=
  if callSucceeds then { node with failureCount := 0 }
  else
    let fc := node.failureCount + 1
    if fc ≥ 3 then { node with failureCount := fc, isHealthy := false }
    else { node with failureCount := fc }

/-- Whether the node at index `i` exists and is healthy. -/
def healthyIdx (nodes : List RPCNode) (i : Nat) : Bool :=
  ((nodes[i]?).map (·.isHealthy)).getD false

/-- The round-robin selection loop of `RPCManager.getHealthyProvider`
(lines 47-73): starting at the cursor, advance while the current node is
unhealthy; after `nodes.length` attempts fall back to the first healthy
node in list order, or to `nodes[0]`.  The second argument is the cursor,
the third the number of remaining attempts. -/
def selectIdx (nodes : List RPCNode) : Nat → Nat → Option Nat
  | _, 0 =>
    (match nodes.findIdx? (·.isHealthy) with
     | some j => some j
     | none => if nodes.length = 0 then none else some 0)
  | ci, r + 1 =>
    match nodes[ci % nodes.length]? with
    | none => none
    | some node =>
      if node.isHealthy then some (ci % nodes.length)
      else selectIdx nodes (ci % nodes.length + 1) r

/-- `RPCManager.getHealthyProvider`: run the loop for `nodes.length`
attempts from the current cursor. -/
def getHealthyProviderIdx (nodes : List RPCNode) (currentIndex : Nat) :
    Option Nat :=
  selectIdx nodes currentIndex nodes.length

/-! ### ZScoreEngine (src/src/rateLimiter.js, second module of the file)

Prices and ratios are JavaScript floats, modelled as `Rat`.  `Math.sqrt` is
passed in as a parameter `sqrtFn`; the code only compares the resulting
standard deviation against zero and divides by it. -/

/-- Mean of the historical ratios (calculateZScore line 450). -/
def ratiosMean (rs : List ℚ) : ℚ := rs.sum / rs.length

/-- Population variance of the historical ratios (calculateZScore line 451):
`reduce((a, b) => a + Math.pow(b - mean, 2), 0) / length`. -/
def ratiosVariance (rs : List ℚ) : ℚ :=
  (rs.map (fun b => (b - ratiosMean rs) ^ 2)).sum / rs.length

structure ZScoreResult where
  value : ℚ
  mean : ℚ
  stdDev : ℚ
  ratio : ℚ
  halfLife : ℚ
  hurstExponent : ℚ
deriving DecidableEq, Repr

/-- `ZScoreEngine.calculateZScore` (rateLimiter.js lines 427-480): `null`
when either price is missing or zero, when fewer than `0.7 * windowSize`
historical ratios are available, or when the standard deviation is zero;
otherwise `z = (ratio - mean) / stdDev` with the pair's cointegration
attributes carried along. -/
def calculateZScore (sqrtFn : ℚ → ℚ) (priceA priceB : Option ℚ)
    (historicalRatios : List ℚ) (windowSize : Nat)
    (halfLife hurstExponent : ℚ) : Option ZScoreResult :=
  match priceA, priceB with
  | some pa, some pb =>
    if pa = 0 ∨ pb = 0 then none
    else
      let ratio := pa / pb
      if (historicalRatios.length : ℚ) < (windowSize : ℚ) * (7 / 10) then none
      else
        let mean := ratiosMean historicalRatios
        let stdDev := sqrtFn (ratiosVariance historicalRatios)
        if stdDev = 0 then none
        else some
          { value := (ratio - mean) / stdDev
            mean := mean
            stdDev := stdDev
            ratio := ratio
            halfLife := halfLife
            hurstExponent := hurstExponent }
  | _, _ => none

/-- `ZScoreEngine.calculateConfidence` (lines 590-606). -/
def calculateConfidence (zAbs hurstExponent halfLife : ℚ) : ℚ :=
  let c1 := min (zAbs / 4) 1
  let c2 :=
    if hurstExponent < 2 / 5 then c1 * (6 / 5)
    else if hurstExponent > 3 / 5 then c1 * (4 / 5)
    else c1
  let c3 :=
    if halfLife < 10 then c2 * (13 / 10)
    else if halfLife > 30 then c2 * (7 / 10)
    else c2
  min (max c3 0) 1

structure TradingSignal where
  signal : String
  confidence : ℚ
deriving DecidableEq, Repr

/-- `ZScoreEngine.getTradingSignal` (lines 556-588): `HOLD` with confidence
0 when the z-score is unavailable; otherwise the entry/exit threshold
cascade. -/
def getTradingSignal (zScore : Option ZScoreResult)
    (entryThreshold exitThreshold : ℚ) : TradingSignal :=
  match zScore with
  | none => { signal := "HOLD", confidence := 0 }
  | some z =>
    let absZScore := |z.value|
    if z.value > entryThreshold then
      { signal := "SHORT_A_LONG_B"
        confidence := calculateConfidence absZScore z.hurstExponent z.halfLife }
    else if z.value < -entryThreshold then
      { signal := "LONG_A_SHORT_B"
        confidence := calculateConfidence absZScore z.hurstExponent z.halfLife }
    else if absZScore < exitThreshold then
      { signal := "CLOSE_POSITION", confidence := 8 / 10 }
    else
      { signal := "HOLD", confidence := 0 }

/-! ### AlertingSystem (src/src/alerting.js)

Time is Unix milliseconds (`Date.now()`).  The cooldown map
`this.alertCooldowns` is keyed by `` `${level}:${title}:${JSON.stringify(data)}` ``,
modelled as the triple `(level, title, serialized data)`; the map itself is
an association list where the most recent binding for a key shadows older
ones, which gives the same lookup behaviour as a JavaScript `Map`. -/

def AlertKey := String × String × String
deriving DecidableEq

structure AlertEvent where
  time : Nat
  level : String
  title : String
  dataS : String
deriving DecidableEq, Repr

def AlertEvent.key (e : AlertEvent) : AlertKey := (e.level, e.title, e.dataS)

def AlertState := List (AlertKey × Nat)

/-- `this.alertCooldowns.get(alertKey) || 0`. -/
def lastAlertTime (st : AlertState) (k : AlertKey) : Nat :=
  ((st.find? (fun p => p.1 = k)).map (·.2)).getD 0

/-- `this.alertCooldowns.set(alertKey, now)`. -/
def setAlertTime (st : AlertState) (k : AlertKey) (t : Nat) : AlertState :=
  (k, t) :: st

/-- `AlertingSystem.getCooldownForLevel` (alerting.js lines 95-104), in
seconds, default 300. -/
def getCooldownForLevel (level : String) : Nat :=
  if level = "critical" then 60
  else if level = "error" then 300
  else if level = "warning" then 900
  else if level = "info" then 1800
  else if level = "success" then 3600
  else 300

/-- `AlertingSystem.sendAlert` (lines 56-93), reduced to its cooldown gate:
inside the cooldown window it returns `sent: false` without touching any
state; past the window it dispatches to the enabled channels and records
`now` under the alert key.  The returned `Bool` is `true` exactly when the
call got past the gate and attempted dispatch. -/
def sendAlert (st : AlertState) (level title dataS : String) (now : Nat) :
    Bool × AlertState :=
  let alertKey : AlertKey := (level, title, dataS)
  let lastAlert := lastAlertTime st alertKey
  let cooldown := getCooldownForLevel level
  if (now : ℤ) - lastAlert < cooldown * 1000 then (false, st)
  else (true, setAlertTime st alertKey now)

/-- The subsequence of a run's events that got past the cooldown gate. -/
def runAlerts : AlertState → List AlertEvent → List AlertEvent
  | _, [] => []
  | st, e :: es =>
    let r := sendAlert st e.level e.title e.dataS e.time
    if r.1 then e :: runAlerts r.2 es else runAlerts r.2 es

/-- Gap relation between two dispatched alerts of cooldown `cd` seconds. -/
def alertGapOK (cd : Nat) (a b : AlertEvent) : Prop :=
  (cd : ℤ) * 1000 ≤ (b.time : ℤ) - a.time

/-! ### AggregatorService (src/unnamed/part_000)

The uniform route-quote record built by the per-provider handlers
(`getOdosRoute`, `getOneInchRoute`, `getCowRoute`, `getDirectDexRoute`);
`path` entries are kept opaque. -/

structure RouteQuote where
  aggregator : String
  returnAmount : ℤ
  path : List String
  gasEstimate : ℤ
  priceImpact : ℚ
deriving DecidableEq, Repr

/-- `AggregatorService.validateRouteResponse` (part_000 lines 735-755):
throws on an empty response, a non-positive `returnAmount`
(`!route.returnAmount || route.returnAmount <= 0n`), an empty `path`, or a
`returnAmount` under 100 wei.  It performs no check on `gasEstimate`. -/
def validateRouteResponse (route : Option RouteQuote) (aggregator : String) :
    Except String Bool :=
  match route with
  | none => .error ("Empty response from " ++ aggregator)
  | some r =>
    if r.returnAmount ≤ 0 then
      .error ("Invalid return amount from " ++ aggregator)
    else if r.path.length = 0 then
      .error ("Invalid path from " ++ aggregator)
    else if r.returnAmount < 100 then
      .error ("Return amount too small from " ++ aggregator)
    else .ok true

/-- `AggregatorService.getRoute` (lines 115-155) on a cache miss: run the
provider handler (whose outcome, a quote or a thrown source-level failure,
is the `fetched` parameter), validate the response, cache and return it;
any exception propagates to the caller. -/
def getRoute (fetched : Except String RouteQuote) (aggregator : String) :
    Except String RouteQuote :=
  match fetched with
  | .error e => .error e
  | .ok route =>
    match validateRouteResponse (some route) aggregator with
    | .error e => .error e
    | .ok _ => .ok route

/-! ### OpportunityScanner (src/unnamed/part_001)

Tokens are address strings.  A `ScanHop` is a hop object as the scanner
builds them; the statistical builder's hop literals carry no `gasEstimate`
property (hence `none` there), while `findOptimalPath` results do. -/

structure ScanHop where
  fromToken : String
  toToken : String
  amount : ℤ
  outputAmount : ℤ
  dex : String
  priceImpact : ℚ
  gasEstimate : Option ℤ
deriving DecidableEq, Repr

/-- One entry of the `routes` array `findOptimalPath` collects from the
aggregators (or from the direct-DEX fallback). -/
structure RouteCand where
  aggregator : String
  returnAmount : ℤ
  gasEstimate : ℤ
  priceImpact : ℚ
deriving DecidableEq, Repr

/-- `OpportunityScanner.findOptimalPath` (part_001 lines 338-398): the
candidate routes obtained for `(fromToken, toToken, amount)` are supplied
by the `routes` oracle; `reduce` keeps the candidate with the highest
`returnAmount` (first wins ties), and the result record copies
`fromToken` / `toToken` / `amount` from the arguments. -/
def findOptimalPath (routes : String → String → ℤ → List RouteCand)
    (fromToken toToken : String) (amount : ℤ) : Option ScanHop :=
  match routes fromToken toToken amount with
  | [] => none
  | r :: rs =>
    let bestRoute := rs.foldl
      (fun best current =>
        if current.returnAmount > best.returnAmount then current else best) r
    some
      { fromToken := fromToken
        toToken := toToken
        amount := amount
        outputAmount := bestRoute.returnAmount
        dex := bestRoute.aggregator
        priceImpact := bestRoute.priceImpact
        gasEstimate := some bestRoute.gasEstimate }

/-- `ethers.parseUnits(x.toString(), 18)` on a JavaScript float. -/
def parseUnits18 (q : ℚ) : ℤ := ⌊q * 10 ^ 18⌋

/-- `OpportunityScanner.calculateOptimalTradeSize` (lines 462-472); a
missing token price is modelled as price 0, matching the
`if (!sellTokenPrice) return 0` falsy check. -/
def calculateOptimalTradeSize (price : String → ℚ)
    (sellToken _buyToken : String) (deviation : ℚ) : ℤ :=
  let sellTokenPrice := price sellToken
  if sellTokenPrice = 0 then 0
  else
    let baseSize := 1000 / sellTokenPrice
    let scaledSize := baseSize * min (|deviation| * 10) 1
    parseUnits18 scaledSize

/-- `OpportunityScanner.getConvictionLevel` (lines 474-479). -/
def getConvictionLevel (zScore : ℚ) : String :=
  if zScore ≥ 3 then "Very High"
  else if zScore ≥ 5 / 2 then "High"
  else if zScore ≥ 2 then "Medium"
  else "Low"

structure PairInfo where
  tokenA : String
  tokenB : String
  pairType : String
deriving DecidableEq, Repr

/-- The z-score snapshot `buildStatisticalArbitrage` receives. -/
structure ZSnapshot where
  value : ℚ
  mean : ℚ
  stdDev : ℚ
  window : Nat
deriving DecidableEq, Repr

structure StatOpportunity where
  statType : String
  pair : String
  zValue : ℚ
  convictionLevel : String
  path : List ScanHop
  amount : ℤ
  expectedProfit : ℤ
  profitPercent : ℚ
  deviationPercent : ℚ
deriving DecidableEq, Repr

/-- `OpportunityScanner.buildStatisticalArbitrage` (lines 144-209): sell the
overvalued leg (`tokenA` when `z > 0`, else `tokenB`), route it to the
other leg and back; the two hop literals both use `sellToken` as the first
hop's `fromToken` and the second hop's `toToken`.  `profitPercent` uses
BigInt division `(profit / amount) * 100`. -/
def buildStatisticalArbitrage (routes : String → String → ℤ → List RouteCand)
    (price : String → ℚ) (pair : PairInfo) (zScore : ZSnapshot) :
    Option StatOpportunity :=
  let priceA := price pair.tokenA
  let priceB := price pair.tokenB
  let expectedRatio := zScore.mean
  let currentRatio := priceA / priceB
  let deviation := (currentRatio - expectedRatio) / expectedRatio
  let isOvervalued := zScore.value > 0
  let sellToken := if isOvervalued then pair.tokenA else pair.tokenB
  let buyToken := if isOvervalued then pair.tokenB else pair.tokenA
  let amount := calculateOptimalTradeSize price sellToken buyToken deviation
  if amount ≤ 0 then none
  else
    match findOptimalPath routes sellToken buyToken amount with
    | none => none
    | some path =>
      if path.outputAmount ≤ amount then none
      else
        match findOptimalPath routes buyToken sellToken path.outputAmount with
        | none => none
        | some returnPath =>
          let roundTripOutput := returnPath.outputAmount
          let profit := roundTripOutput - amount
          let profitPercent : ℚ := ((profit / amount : ℤ) : ℚ) * 100
          some
            { statType := "statistical"
              pair := pair.tokenA ++ "/" ++ pair.tokenB
              zValue := zScore.value
              convictionLevel := getConvictionLevel |zScore.value|
              path :=
                [{ fromToken := sellToken
                   toToken := buyToken
                   amount := amount
                   outputAmount := path.outputAmount
                   dex := path.dex
                   priceImpact := path.priceImpact
                   gasEstimate := none },
                 { fromToken := buyToken
                   toToken := sellToken
                   amount := path.outputAmount
                   outputAmount := roundTripOutput
                   dex := returnPath.dex
                   priceImpact := returnPath.priceImpact
                   gasEstimate := none }]
              amount := amount
              expectedProfit := profit
              profitPercent := profitPercent
              deviationPercent := deviation * 100 }

structure TokenInfo where
  address : String
deriving DecidableEq, Repr

structure TriOpportunity where
  triType : String
  tokens : List String
  path : List ScanHop
  amount : ℤ
  expectedProfit : ℤ
  profitPercent : ℚ
deriving DecidableEq, Repr

/-- `OpportunityScanner.checkTriangularPath` (lines 234-264): route
1 unit base → A → B → base; keep the cycle only when the final amount
exceeds the input. -/
def checkTriangularPath (routes : String → String → ℤ → List RouteCand)
    (baseToken tokenA tokenB : TokenInfo) : Option TriOpportunity :=
  let amount : ℤ := 10 ^ 18
  match findOptimalPath routes baseToken.address tokenA.address amount with
  | none => none
  | some path1 =>
    match findOptimalPath routes tokenA.address tokenB.address
        path1.outputAmount with
    | none => none
    | some path2 =>
      match findOptimalPath routes tokenB.address baseToken.address
          path2.outputAmount with
      | none => none
      | some path3 =>
        if path3.outputAmount > amount then
          some
            { triType := "triangular"
              tokens := [baseToken.address, tokenA.address, tokenB.address]
              path := [path1, path2, path3]
              amount := amount
              expectedProfit := path3.outputAmount - amount
              profitPercent :=
                ((path3.outputAmount - amount : ℤ) : ℚ) / (amount : ℚ) * 100 }
        else none

structure TokenLite where
  address : String
deriving DecidableEq, Repr

structure FoundPath where
  path : List ScanHop
  profit : ℤ
  hops : Nat
deriving DecidableEq, Repr

/-- The recursive depth-first search inside
`OpportunityScanner.findProfitablePaths` (lines 292-336).  The search
recurses with `hops + 1` and stops past `maxHops`, so a fuel of
`maxHops + 1` makes the recursion structural; the sequential pushes of the
per-neighbour recursive calls are their concatenation. -/
def dfs (routes : String → String → ℤ → List RouteCand)
    (tokens : List TokenLite) (startToken : String) (minHops maxHops : Nat) :
    Nat → List ScanHop → String → ℤ → Nat → List FoundPath
  | 0, _, _, _, _ => []
  | fuel + 1, currentPath, currentToken, currentAmount, hops =>
    if hops > maxHops then []
    else if hops ≥ minHops ∧ currentToken = startToken ∧
        currentPath.length > 1 then
      (let profit := currentAmount - 10 ^ 18
       if profit > 0 then
         [{ path := currentPath, profit := profit, hops := hops }]
       else [])
    else
      (((tokens.filter (fun t => t.address ≠ currentToken)).take 5).map
        (fun nextToken =>
          match findOptimalPath routes currentToken nextToken.address
              currentAmount with
          | some nextStep =>
            dfs routes tokens startToken minHops maxHops fuel
              (currentPath ++ [nextStep]) nextToken.address
              nextStep.outputAmount (hops + 1)
          | none => [])).flatten

/-- `OpportunityScanner.findProfitablePaths` (lines 292-336): run the
search from `startToken` on 1 unit and sort the found cycles by raw profit
descending. -/
def findProfitablePaths (routes : String → String → ℤ → List RouteCand)
    (startToken : String) (tokens : List TokenLite)
    (minHops maxHops : Nat) : List FoundPath :=
  let initialAmount : ℤ := 10 ^ 18
  (dfs routes tokens startToken minHops maxHops (maxHops + 1) [] startToken
      initialAmount 0).mergeSort (fun a b => b.profit ≤ a.profit)

/-- The pair enumeration of `ZScoreEngine.initializePairs` (rateLimiter.js
lines 103-133): all unordered base-base pairs, then for the first two base
tokens every distinct top token as a base-alt pair. -/
def baseBasePairs : List String → List PairInfo
  | [] => []
  | a :: rest =>
    rest.map (fun b => { tokenA := a, tokenB := b, pairType := "base-base" })
      ++ baseBasePairs rest

def baseAltPairs (baseTokens : List String) (topTokens : List TokenLite) :
    List PairInfo :=
  (baseTokens.take 2).flatMap (fun baseToken =>
    ((topTokens.take 15).filter (fun t => t.address ≠ baseToken)).map
      (fun t =>
        { tokenA := baseToken, tokenB := t.address, pairType := "base-alt" }))

def initializePairs (baseTokens : List String) (topTokens : List TokenLite) :
    List PairInfo :=
  baseBasePairs baseTokens ++ baseAltPairs baseTokens topTokens

/-! ### OpportunityScanner validation (src/unnamed/part_001, C5)

The object `simulateOpportunity` returns is modelled as the literal
association list the source constructs, so that the field access
`simulated.profitPercent` in `validateOpportunities` can be evaluated under
JavaScript semantics (`undefined` for an absent property, and
`undefined > x` is false). -/

inductive JsVal where
  | num (q : ℚ)
  | bool (b : Bool)
  | str (s : String)
deriving DecidableEq, Repr

def JsObj := List (String × JsVal)

/-- Property access `o.k` on an object literal. -/
def jsGet (o : JsObj) (propName : String) : Option JsVal :=
  (o.find? (fun p => p.1 = propName)).map (·.2)

/-- JavaScript truthiness of a possibly-undefined value. -/
def jsTruthy : Option JsVal → Bool
  | some (.bool b) => b
  | some (.num q) => decide (q ≠ 0)
  | some (.str s) => !s.isEmpty
  | none => false

/-- JavaScript `v > c` for a possibly-undefined `v` (undefined compares as
NaN, so the comparison is false). -/
def jsGtNum : Option JsVal → ℚ → Bool
  | some (.num q), c => decide (q > c)
  | _, _ => false

/-- JavaScript `x || d` on an optional BigInt-valued property. -/
def jsOrZ (v : Option ℤ) (d : ℤ) : ℤ :=
  match v with
  | some x => if x = 0 then d else x
  | none => d

structure ScanOpportunity where
  oppType : String
  path : List ScanHop
  amount : ℤ
  expectedProfit : ℤ
  profitPercent : ℚ
deriving DecidableEq, Repr

/-- `OpportunityScanner.simulateOpportunity` (lines 503-530): price the
per-hop gas (`hop.gasEstimate || 50000`) at the network gas price and a
fixed 1800 USD native price, and return the result object with fields
`success`, `profitUSD`, `gasCostUSD`, `netProfitUSD`, `netProfitPercent`,
`gasUsed` — and no `profitPercent` field. -/
def simulateOpportunity (gasPrice : ℤ) (opp : ScanOpportunity) : JsObj :=
  let gasCost : ℤ := (opp.path.map (fun h => jsOrZ h.gasEstimate 50000)).sum
  let gasCostUSD : ℚ := ((gasPrice * gasCost : ℤ) : ℚ) / 10 ^ 18 * 1800
  let profitUSD : ℚ := (opp.expectedProfit : ℚ) / 10 ^ 18 * 1800
  let netProfitUSD := profitUSD - gasCostUSD
  let netProfitPercent :=
    netProfitUSD / ((opp.amount : ℚ) / 10 ^ 18 * 1800) * 100
  [("success", .bool (decide (netProfitPercent > 0))),
   ("profitUSD", .num profitUSD),
   ("gasCostUSD", .num gasCostUSD),
   ("netProfitUSD", .num netProfitUSD),
   ("netProfitPercent", .num netProfitPercent),
   ("gasUsed", .num (gasCost : ℚ))]

/-- `OpportunityScanner.validateOpportunities` (lines 481-501): keep an
opportunity when `simulated.success && simulated.profitPercent > 0.05`.
The kept entries are the spread copies `{...opp, validated, simulationResult}`,
identified here with `opp` itself. -/
def validateOpportunities (gasPrice : ℤ) (opps : List ScanOpportunity) :
    List ScanOpportunity :=
  opps.foldl
    (fun validated opp =>
      let simulated := simulateOpportunity gasPrice opp
      if jsTruthy (jsGet simulated "success") &&
          jsGtNum (jsGet simulated "profitPercent") (5 / 100) then
        validated ++ [opp]
      else validated)
    []

/-! ### Concrete scenario used for C2 and C5

Configured base tokens `B0`, `B1`; one liquid alt token `ALT`; a route
oracle that doubles every input amount through `odos`; prices
`B0 ↦ 2 USD`, `ALT ↦ 1 USD`; a cointegrated base-alt pair with z = -2.5
(below the negated entry threshold, so the alt leg is sold). -/

def cexBaseTokens : List String := ["B0", "B1"]

def cexTopTokens : List TokenLite := [⟨"ALT"⟩]

def cexPair : PairInfo := ⟨"B0", "ALT", "base-alt"⟩

def cexRoutes : String → String → ℤ → List RouteCand :=
  fun _ _ amount => [⟨"odos", amount * 2, 150000, 0⟩]

def cexPrice : String → ℚ :=
  fun token => if token = "B0" then 2 else if token = "ALT" then 1 else 0

def cexZ : ZSnapshot := { value := -5 / 2, mean := 1, stdDev := 1 / 10, window := 100 }

/-- The statistical opportunity the builder produces on this scenario. -/
def cexOpp : StatOpportunity :=
  { statType := "statistical"
    pair := "B0/ALT"
    zValue := -5 / 2
    convictionLevel := "High"
    path :=
      [⟨"ALT", "B0", 10 ^ 21, 2 * 10 ^ 21, "odos", 0, none⟩,
       ⟨"B0", "ALT", 2 * 10 ^ 21, 4 * 10 ^ 21, "odos", 0, none⟩]
    amount := 10 ^ 21
    expectedProfit := 3 * 10 ^ 21
    profitPercent := 300
    deviationPercent := 100 }

/-- A profitable one-hop opportunity for C5: 1 unit in, costing 50000 gas,
with an expected profit of 1 unit (1800 USD at the fixed price). -/
def cexC5Opp : ScanOpportunity :=
  { oppType := "triangular"
    path := [⟨"B0", "ALT", 10 ^ 18, 2 * 10 ^ 18, "odos", 0, some 50000⟩]
    amount := 10 ^ 18
    expectedProfit := 10 ^ 18
    profitPercent := 100 }

/-! ### Orchestrator execution decision (src/src/bot.js) -/

/-- `BaseAlphaArbBot.evaluateOpportunity` (bot.js lines 482-557), as a
function of the values its five gates read: the profit breakdown's
`meetsThreshold`, the MEV-guard verdict, the optimal gas price versus the
configured cap, the simulation outcome, and the simulated net profit versus
`minProfitThresholdUSD * 1.5`. -/
def evaluateOpportunity (meetsThreshold mevSafe : Bool)
    (gasPriceGwei maxGasPriceGwei : ℚ) (simSuccess : Bool)
    (simNetProfitUSD minProfitThresholdUSD : ℚ) : Bool :=
  if !meetsThreshold then false
  else if !mevSafe then false
  else if gasPriceGwei > maxGasPriceGwei then false
  else if !simSuccess then false
  else if simNetProfitUSD < minProfitThresholdUSD * (3 / 2) then false
  else true

/-- `BaseAlphaArbBot.scanCycle` (bot.js lines 402-480) hands an opportunity
to `executeOpportunity` only when shape validation passed and
`evaluateOpportunity` returned `true`. -/
def scanCycleExecutes (validationIsValid : Bool)
    (meetsThreshold mevSafe : Bool) (gasPriceGwei maxGasPriceGwei : ℚ)
    (simSuccess : Bool) (simNetProfitUSD minProfitThresholdUSD : ℚ) : Bool :=
  validationIsValid &&
    evaluateOpportunity meetsThreshold mevSafe gasPriceGwei maxGasPriceGwei
      simSuccess simNetProfitUSD minProfitThresholdUSD

lemma foldl_enumFrom_swapGas (t : List PCHop) :
    ∀ (n : Nat) (b s : Nat), n ≠ 0 →
      (List.enumFrom n t).foldl
        (fun (acc : Nat × Nat) x =>
          let baseGas := if x.1 = 0 then acc.1 + 100000 else acc.1
          (baseGas, acc.2 + estimateSwapGas x.2)) (b, s)
      = (b, s + (t.map estimateSwapGas).sum) := by
  induction t with
  | nil => intro n b s _; simp
  | cons h t ih =>
    intro n b s hn
    have hns : n + 1 ≠ 0 := Nat.succ_ne_zero n
    simp only [List.enumFrom, List.foldl_cons, List.map_cons, List.sum_cons]
    rw [if_neg hn, ih (n + 1) b (s + estimateSwapGas h) hns]
    ring_nf

/-- Closed form of the gas estimate: the first hop contributes an extra
100000 to the base gas. -/
lemma estimateTransactionGas_eq (path : List PCHop) :
    estimateTransactionGas path =
      (21000 + (if path = [] then 0 else 100000) +
        (path.map estimateSwapGas).sum + 250000) * 150 / 100 := by
  cases path with
  | nil => simp [estimateTransactionGas]
  | cons h t =>
    simp only [estimateTransactionGas, List.enum]
    rw [show List.enumFrom 0 (h :: t) = (0, h) :: List.enumFrom 1 t from rfl]
    simp only [List.foldl_cons, eq_self_iff_true, if_true]
    rw [foldl_enumFrom_swapGas t 1 (21000 + 100000) (0 + estimateSwapGas h)
      (Nat.one_ne_zero)]
    simp only [List.map_cons, List.sum_cons, if_neg (List.cons_ne_nil h t)]
    ring_nf

lemma selectIdx_healthy (nodes : List RPCNode) :
    ∀ (r ci : Nat), (∃ k, k < r ∧ healthyIdx nodes ((ci + k) % nodes.length) = true) →
      ∃ i, selectIdx nodes ci r = some i ∧ healthyIdx nodes i = true := by
  intro r
  induction r with
  | zero =>
    rintro ci ⟨k, hk, -⟩
    omega
  | succ r ih =>
    rintro ci ⟨k, hk, hh⟩
    have hn : nodes.length ≠ 0 := by
      intro h0
      rw [List.length_eq_zero.mp h0] at hh
      simp [healthyIdx] at hh
    have hlt : ci % nodes.length < nodes.length :=
      Nat.mod_lt _ (Nat.pos_of_ne_zero hn)
    have hget : nodes[ci % nodes.length]? = some (nodes[ci % nodes.length]) :=
      List.getElem?_eq_getElem hlt
    by_cases hH : nodes[ci % nodes.length].isHealthy
    · refine ⟨ci % nodes.length, ?_, ?_⟩
      · rw [selectIdx, hget]
        simp [hH]
      · simp [healthyIdx, hget, hH]
    · have hstep : selectIdx nodes ci (r + 1) =
          selectIdx nodes (ci % nodes.length + 1) r := by
        rw [selectIdx, hget]
        simp [hH]
      rw [hstep]
      apply ih
      have hk0 : k ≠ 0 := by
        intro h0
        subst h0
        simp only [Nat.add_zero] at hh
        simp [healthyIdx, hget, hH] at hh
      refine ⟨k - 1, by omega, ?_⟩
      have hmod : (ci % nodes.length + 1 + (k - 1)) % nodes.length =
          (ci + k) % nodes.length := by
        have h1 : ci % nodes.length + 1 + (k - 1) = ci % nodes.length + k := by
          omega
        rw [h1, Nat.mod_add_mod]
      rw [hmod]
      exact hh

lemma executeWithLimiters_fail_fc (node : RPCNode) :
    (executeWithLimiters node false).failureCount = node.failureCount + 1 := by
  simp only [executeWithLimiters, Bool.false_eq_true, if_false]
  split <;> rfl

lemma executeWithLimiters_fail_health (node : RPCNode) :
    (executeWithLimiters node false).isHealthy =
      if node.failureCount + 1 ≥ 3 then false else node.isHealthy := by
  simp only [executeWithLimiters, Bool.false_eq_true, if_false]
  split <;> rfl

lemma lastAlertTime_set_same (st : AlertState) (k : AlertKey) (t : Nat) :
    lastAlertTime (setAlertTime st k t) k = t := by
  simp [lastAlertTime, setAlertTime, List.find?]

lemma lastAlertTime_set_other (st : AlertState) (k k' : AlertKey) (t : Nat)
    (hne : k ≠ k') :
    lastAlertTime (setAlertTime st k t) k' = lastAlertTime st k' := by
  simp [lastAlertTime, setAlertTime, List.find?, hne]

lemma sendAlert_cases (st : AlertState) (level title dataS : String)
    (now : Nat) :
    if (now : ℤ) - lastAlertTime st (level, title, dataS) <
        getCooldownForLevel level * 1000 then
      sendAlert st level title dataS now = (false, st)
    else
      sendAlert st level title dataS now =
        (true, setAlertTime st (level, title, dataS) now) := by
  unfold sendAlert
  split <;> simp_all

lemma runAlerts_chain (k : AlertKey) :
    ∀ (evs : List AlertEvent) (st : AlertState),
      ((runAlerts st evs).filter (fun e => e.key = k)).Chain'
          (alertGapOK (getCooldownForLevel k.1)) ∧
      (∀ e, ((runAlerts st evs).filter (fun e => e.key = k)).head? = some e →
        (lastAlertTime st k : ℤ) + getCooldownForLevel k.1 * 1000 ≤ e.time) := by
  intro evs
  induction evs with
  | nil => intro st; exact ⟨List.chain'_nil, fun e h => by simp [runAlerts] at h⟩
  | cons ev es ih =>
    intro st
    have hcases := sendAlert_cases st ev.level ev.title ev.dataS ev.time
    by_cases hc : (ev.time : ℤ) - lastAlertTime st (ev.level, ev.title, ev.dataS) <
        getCooldownForLevel ev.level * 1000
    · rw [if_pos hc] at hcases
      have hrun : runAlerts st (ev :: es) = runAlerts st es := by
        simp [runAlerts, hcases]
      rw [hrun]
      exact ih st
    · rw [if_neg hc] at hcases
      have hrun : runAlerts st (ev :: es) =
          ev :: runAlerts (setAlertTime st (ev.level, ev.title, ev.dataS) ev.time) es := by
        simp [runAlerts, hcases]
      obtain ⟨ihchain, ihhead⟩ :=
        ih (setAlertTime st (ev.level, ev.title, ev.dataS) ev.time)
      by_cases hk : ev.key = k
      · have hk1 : k.1 = ev.level := by rw [← hk]; rfl
        have hktriple : k = (ev.level, ev.title, ev.dataS) := by rw [← hk]; rfl
        have hlast : lastAlertTime
            (setAlertTime st (ev.level, ev.title, ev.dataS) ev.time) k = ev.time := by
          rw [hktriple, lastAlertTime_set_same]
        rw [hrun]
        have hfilter : ((ev :: runAlerts
              (setAlertTime st (ev.level, ev.title, ev.dataS) ev.time) es).filter
            (fun x => x.key = k)) =
            ev :: ((runAlerts
              (setAlertTime st (ev.level, ev.title, ev.dataS) ev.time) es).filter
            (fun x => x.key = k)) := by
          simp [List.filter, hk]
        rw [hfilter]
        constructor
        · rw [List.chain'_cons']
          refine ⟨?_, ihchain⟩
          intro b hb
          have hbnd := ihhead b hb
          rw [hlast] at hbnd
          unfold alertGapOK
          omega
        · intro x hx
          rw [List.head?_cons] at hx
          have hex : x = ev := (Option.some.inj hx).symm
          rw [hex, hktriple]
          show (lastAlertTime st (ev.level, ev.title, ev.dataS) : ℤ) +
            getCooldownForLevel ev.level * 1000 ≤ ev.time
          omega
      · have hfilter : ((ev :: runAlerts
              (setAlertTime st (ev.level, ev.title, ev.dataS) ev.time) es).filter
            (fun x => x.key = k)) =
            ((runAlerts
              (setAlertTime st (ev.level, ev.title, ev.dataS) ev.time) es).filter
            (fun x => x.key = k)) := by
          simp [List.filter, hk]
        have hlast : lastAlertTime
            (setAlertTime st (ev.level, ev.title, ev.dataS) ev.time) k =
            lastAlertTime st k := by
          apply lastAlertTime_set_other
          rw [← show ev.key = (ev.level, ev.title, ev.dataS) from rfl]
          exact hk
        rw [hrun, hfilter]
        refine ⟨ihchain, fun x hx => ?_⟩
        have hbnd := ihhead x hx
        rw [hlast] at hbnd
        exact hbnd

/-- C4 counterexample: for the one-hop Aerodrome path the code returns
781500 (it adds a 100000 first-hop overhead), while the claimed formula
`(21000 + Σ hop swap gas + 250000) * 1.5` gives 631500. -/
theorem estimateTransactionGas_claim_false :
    ¬ (estimateTransactionGas [⟨"Aerodrome", none⟩] =
        (21000 + ([(⟨"Aerodrome", none⟩ : PCHop)].map estimateSwapGas).sum
          + 250000) * 150 / 100) := by
  decide

/-- C4 (amended): with no simulated gas value, the transaction gas estimate
is `(21000 + first-hop overhead 100000 (for a non-empty path) + Σ per-hop
swap gas + 250000 flash-loan overhead) * 1.5`, in BigInt arithmetic
`* 150n / 100n`. -/
theorem estimateTransactionGas_formula (path : List PCHop) :
    estimateTransactionGas path =
      (21000 + (if path = [] then 0 else 100000) +
        (path.map estimateSwapGas).sum + 250000) * 150 / 100 :=
  estimateTransactionGas_eq path

/-- C1: the transactions signed by `buildArbitrageTransaction` and
`buildFlashLoanTransaction` have `maxFeePerGas` at most `maxGasPriceGwei`
in wei, because `getOptimalMaxFee` clamps to that bound; `cancelTransaction`
and `speedUpTransaction` never produce a transaction at all (their fee
scaling multiplies a BigInt by a Number, which throws), so every
transaction they produce vacuously satisfies the bound. -/
theorem transactionBuilder_maxFee_invariant (contractAddr poolAddress : String)
    (nonce gasLimit : Nat) (gasPrice : Option Nat) (rewards : List Nat)
    (maxGasPriceGwei : Nat) (pendingTxs : List (String × TxData))
    (walletAddr oldTxHash : String) (mult : ℚ) :
    (buildArbitrageTransaction contractAddr nonce gasLimit gasPrice rewards
        maxGasPriceGwei).maxFeePerGas ≤ maxGasPriceGwei * gweiFactor ∧
    (buildFlashLoanTransaction poolAddress nonce gasPrice rewards
        maxGasPriceGwei).maxFeePerGas ≤ maxGasPriceGwei * gweiFactor ∧
    (∃ e, cancelTransaction pendingTxs walletAddr oldTxHash mult =
        .error e) ∧
    (∃ e, speedUpTransaction pendingTxs oldTxHash mult = .error e) := by
  refine ⟨?_, ?_, ?_, ?_⟩
  · simp only [buildArbitrageTransaction, getOptimalMaxFee]
    split <;> omega
  · simp only [buildFlashLoanTransaction, getOptimalMaxFee]
    split <;> omega
  · unfold cancelTransaction
    cases (pendingTxs.find? (fun p => p.1 = oldTxHash)).map (·.2) with
    | none => exact ⟨"Transaction not found", rfl⟩
    | some oldTx => exact ⟨_, rfl⟩
  · unfold speedUpTransaction
    cases (pendingTxs.find? (fun p => p.1 = oldTxHash)).map (·.2) with
    | none => exact ⟨"Transaction not found", rfl⟩
    | some oldTx => exact ⟨_, rfl⟩

/-- C3: the local simulation reports success iff the projected net profit
(gross profit minus gas cost minus flash-loan cost) is strictly positive;
the remote (Tenderly) simulation always throws (missing API key, or the
unimported `axios`), so `simulateTransaction` always reports the local
simulation's result and the equivalence holds for every report it makes. -/
theorem simulateTransaction_success_iff (testMode : Bool)
    (tenderlyApiKey : Option String) (hopGasEstimates : List Nat)
    (feeData : FeeData) (ethPrice : Option ℚ) (profit : ProfitDetails) :
    ((performLocalSimulation hopGasEstimates feeData ethPrice profit).success
        = true ↔
      profit.grossProfitUSD -
          ((hopGasEstimates.sum * feeGasPrice feeData : Nat) : ℚ) / 10 ^ 18 *
            jsOrQ ethPrice 1800 -
          profit.flashLoanCostUSD > 0) ∧
    (∃ msg, performTenderlySimulation tenderlyApiKey = .error msg) ∧
    simulateTransaction testMode tenderlyApiKey hopGasEstimates feeData
        ethPrice profit =
      performLocalSimulation hopGasEstimates feeData ethPrice profit := by
  refine ⟨?_, ?_, ?_⟩
  · simp [performLocalSimulation]
  · cases tenderlyApiKey with
    | none => exact ⟨_, rfl⟩
    | some k => exact ⟨_, rfl⟩
  · cases testMode with
    | false => cases tenderlyApiKey <;> rfl
    | true => rfl

/-- C6: for every RPC endpoint, a successful call through the limiters
resets its failure counter to zero; three consecutive failed calls leave it
marked unhealthy; and the next `getHealthyProvider` selection returns a
healthy endpoint whenever one exists, so it does not return an unhealthy
endpoint while some other endpoint is healthy. -/
theorem rpc_endpoint_health (node : RPCNode) (nodes : List RPCNode)
    (ci j : Nat)
    (hex : ∃ (k : Nat) (h : RPCNode), nodes[k]? = some h ∧ h.isHealthy = true) :
    (executeWithLimiters node true).failureCount = 0 ∧
    (executeWithLimiters (executeWithLimiters
        (executeWithLimiters node false) false) false).isHealthy = false ∧
    (∃ i, getHealthyProviderIdx nodes ci = some i ∧
        healthyIdx nodes i = true) ∧
    (healthyIdx nodes j = false → getHealthyProviderIdx nodes ci ≠ some j) := by
  have hsel : ∃ i, getHealthyProviderIdx nodes ci = some i ∧
      healthyIdx nodes i = true := by
    obtain ⟨k, h, hk, hkH⟩ := hex
    obtain ⟨hklt, hkval⟩ := List.getElem?_eq_some.mp hk
    have hn0 : 0 < nodes.length := Nat.lt_of_le_of_lt (Nat.zero_le k) hklt
    apply selectIdx_healthy
    refine ⟨(k + nodes.length - ci % nodes.length) % nodes.length,
      Nat.mod_lt _ hn0, ?_⟩
    have hcilt : ci % nodes.length < nodes.length := Nat.mod_lt _ hn0
    have h1 : (ci + (k + nodes.length - ci % nodes.length) % nodes.length) %
        nodes.length = (ci % nodes.length +
          (k + nodes.length - ci % nodes.length) % nodes.length) %
        nodes.length := by
      rw [Nat.mod_add_mod]
    have h2 : (ci % nodes.length +
        (k + nodes.length - ci % nodes.length) % nodes.length) %
        nodes.length = (ci % nodes.length +
          (k + nodes.length - ci % nodes.length)) % nodes.length := by
      rw [Nat.add_mod_mod]
    have h3 : ci % nodes.length + (k + nodes.length - ci % nodes.length) =
        k + nodes.length := by omega
    rw [h1, h2, h3, Nat.add_mod_right, Nat.mod_eq_of_lt hklt]
    simp [healthyIdx, List.getElem?_eq_getElem hklt, hkval, hkH]
  refine ⟨?_, ?_, hsel, ?_⟩
  · simp [executeWithLimiters]
  · rw [executeWithLimiters_fail_health, executeWithLimiters_fail_fc,
      executeWithLimiters_fail_fc]
    rw [if_pos (by omega)]
  · intro hj hcontra
    obtain ⟨i, hi, hiH⟩ := hsel
    rw [hcontra] at hi
    have hij : j = i := Option.some.inj hi
    subst hij
    rw [hiH] at hj
    exact absurd hj (by decide)

/-- Witness for C6 at a concrete state: endpoint 0 has just failed three
consecutive calls and is unhealthy; endpoint 1 is healthy; selection from
cursor 0 skips endpoint 0. -/
theorem rpc_endpoint_health_witness :
    (executeWithLimiters ⟨0, true, 0⟩ true).failureCount = 0 ∧
    (executeWithLimiters (executeWithLimiters
        (executeWithLimiters ⟨0, true, 0⟩ false) false) false).isHealthy
      = false ∧
    (∃ i, getHealthyProviderIdx
        [⟨0, false, 3⟩, ⟨1, true, 0⟩] 0 = some i ∧
        healthyIdx [⟨0, false, 3⟩, ⟨1, true, 0⟩] i = true) ∧
    (healthyIdx [⟨0, false, 3⟩, ⟨1, true, 0⟩] 0 = false →
      getHealthyProviderIdx [⟨0, false, 3⟩, ⟨1, true, 0⟩] 0 ≠ some 0) :=
  rpc_endpoint_health ⟨0, true, 0⟩ [⟨0, false, 3⟩, ⟨1, true, 0⟩] 0 0
    ⟨1, ⟨1, true, 0⟩, by decide, by decide⟩

/-- C7: for a cointegrated pair the trading signal is `SHORT_A_LONG_B` when
`z` exceeds the entry threshold, `LONG_A_SHORT_B` when `z` is below the
negated entry threshold, `CLOSE_POSITION` when `|z|` is below the exit
threshold, and `HOLD` otherwise; and when the sample standard deviation of
the historical ratios is zero, `calculateZScore` yields no z-score and the
signal is `HOLD` with confidence 0. -/
theorem zscore_trading_signal (z : ZScoreResult) (entry exit₀ : ℚ)
    (sqrtFn : ℚ → ℚ) (priceA priceB : Option ℚ) (ratios : List ℚ)
    (windowSize : Nat) (halfLife hurstExponent : ℚ)
    (hentry : 0 ≤ entry) (hthr : exit₀ ≤ entry)
    (hsigma : sqrtFn (ratiosVariance ratios) = 0) :
    (z.value > entry →
      (getTradingSignal (some z) entry exit₀).signal = "SHORT_A_LONG_B") ∧
    (z.value < -entry →
      (getTradingSignal (some z) entry exit₀).signal = "LONG_A_SHORT_B") ∧
    (|z.value| < exit₀ →
      (getTradingSignal (some z) entry exit₀).signal = "CLOSE_POSITION") ∧
    (¬ z.value > entry → ¬ z.value < -entry → ¬ |z.value| < exit₀ →
      getTradingSignal (some z) entry exit₀ = ⟨"HOLD", 0⟩) ∧
    getTradingSignal
        (calculateZScore sqrtFn priceA priceB ratios windowSize halfLife
          hurstExponent) entry exit₀ = ⟨"HOLD", 0⟩ := by
  refine ⟨?_, ?_, ?_, ?_, ?_⟩
  · intro hz
    simp [getTradingSignal, hz]
  · intro hz
    have h1 : ¬ z.value > entry := by
      intro hc
      linarith
    simp [getTradingSignal, h1, hz]
  · intro hz
    have habs1 : z.value ≤ |z.value| := le_abs_self _
    have habs2 : -|z.value| ≤ z.value := neg_abs_le _
    have h1 : ¬ z.value > entry := by
      intro hc
      linarith
    have h2 : ¬ z.value < -entry := by
      intro hc
      linarith
    simp [getTradingSignal, h1, h2, hz]
  · intro h1 h2 h3
    simp [getTradingSignal, h1, h2, h3]
  · have hz : calculateZScore sqrtFn priceA priceB ratios windowSize halfLife
        hurstExponent = none := by
      unfold calculateZScore
      cases priceA with
      | none => rfl
      | some pa =>
        cases priceB with
        | none => rfl
        | some pb =>
          simp only [hsigma]
          split
          · rfl
          · split
            · rfl
            · simp
    rw [hz]
    rfl

/-- Witness for C7: entry threshold 2, exit threshold 1/2, a z-score of 3
gives `SHORT_A_LONG_B` (the σ = 0 hypothesis is instantiated with two equal
ratios, whose variance is 0, and `sqrtFn 0 = 0`). -/
theorem zscore_trading_signal_witness :
    (getTradingSignal (some ⟨3, 2, 1, 3, 5, 1 / 2⟩) 2 (1 / 2)).signal
      = "SHORT_A_LONG_B" :=
  (zscore_trading_signal ⟨3, 2, 1, 3, 5, 1 / 2⟩ 2 (1 / 2) id (some 1) (some 1)
      [1, 1] 2 5 (1 / 2) (by norm_num) (by norm_num)
      (by norm_num [ratiosVariance, ratiosMean])).1 (by norm_num)

/-- C9: the per-level cooldowns are 60/300/900/1800/3600 seconds for
critical/error/warning/info/success; a `sendAlert` call inside the cooldown
window sends nothing and leaves the state unchanged; and along any run,
any two consecutively dispatched alerts with the same `(level, title, data)`
key are at least the level's cooldown apart. -/
theorem alert_cooldown_respected (evs : List AlertEvent) (k : AlertKey)
    (st : AlertState) (level title dataS : String) (now : Nat)
    (hwin : (now : ℤ) - lastAlertTime st (level, title, dataS) <
      getCooldownForLevel level * 1000) :
    (getCooldownForLevel "critical" = 60 ∧ getCooldownForLevel "error" = 300 ∧
      getCooldownForLevel "warning" = 900 ∧
      getCooldownForLevel "info" = 1800 ∧
      getCooldownForLevel "success" = 3600) ∧
    sendAlert st level title dataS now = (false, st) ∧
    ((runAlerts [] evs).filter (fun e => e.key = k)).Chain'
      (alertGapOK (getCooldownForLevel k.1)) := by
  refine ⟨⟨by decide, by decide, by decide, by decide, by decide⟩, ?_, ?_⟩
  · have h := sendAlert_cases st level title dataS now
    rw [if_pos hwin] at h
    exact h
  · exact (runAlerts_chain k evs []).1

/-- Witness for C9: two critical alerts with the same key at t = 0 ms and
t = 1000 ms; a blocked call at t = 500 ms from the empty state is inside
no window (the state is empty), so the hypothesis is instantiated with a
state that last dispatched the key at t = 0. -/
theorem alert_cooldown_respected_witness :
    (getCooldownForLevel "critical" = 60 ∧ getCooldownForLevel "error" = 300 ∧
      getCooldownForLevel "warning" = 900 ∧
      getCooldownForLevel "info" = 1800 ∧
      getCooldownForLevel "success" = 3600) ∧
    sendAlert [(("critical", "t", "d"), 0)] "critical" "t" "d" 500 =
      (false, [(("critical", "t", "d"), 0)]) ∧
    ((runAlerts []
        [⟨0, "critical", "t", "d"⟩, ⟨1000, "critical", "t", "d"⟩]).filter
      (fun e => e.key = ("critical", "t", "d"))).Chain'
      (alertGapOK (getCooldownForLevel ("critical", "t", "d").1)) :=
  alert_cooldown_respected
    [⟨0, "critical", "t", "d"⟩, ⟨1000, "critical", "t", "d"⟩]
    ("critical", "t", "d") [(("critical", "t", "d"), 0)] "critical" "t" "d"
    500 (by decide)

/-- C10: an opportunity is handed to the Transaction Builder only when its
post-simulation `netProfitUSD` is at least `1.5 * minProfitThresholdUSD`;
the margin check in `evaluateOpportunity` is unconditional, so this holds
for every evaluated opportunity. -/
theorem scanCycleExecutes_profit_margin (validationIsValid : Bool)
    (meetsThreshold mevSafe : Bool) (gasPriceGwei maxGasPriceGwei : ℚ)
    (simSuccess : Bool) (simNetProfitUSD minProfitThresholdUSD : ℚ)
    (h : scanCycleExecutes validationIsValid meetsThreshold mevSafe
          gasPriceGwei maxGasPriceGwei simSuccess simNetProfitUSD
          minProfitThresholdUSD = true) :
    minProfitThresholdUSD * (3 / 2) ≤ simNetProfitUSD := by
  unfold scanCycleExecutes evaluateOpportunity at h
  by_cases hm : meetsThreshold <;> by_cases hs : mevSafe <;>
    by_cases hg : gasPriceGwei > maxGasPriceGwei <;>
    by_cases hss : simSuccess <;>
    by_cases hp : simNetProfitUSD < minProfitThresholdUSD * (3 / 2) <;>
    (first
      | (simp [hm, hs, hg, hss, hp] at h; linarith)
      | simp [hm, hs, hg, hss, hp] at h)

/-- Witness for C10 at a concrete input: all gates pass with simulated net
profit 30 against threshold 10. -/
theorem scanCycleExecutes_profit_margin_witness :
    (10 : ℚ) * (3 / 2) ≤ 30 :=
  scanCycleExecutes_profit_margin true true true 1 10 true 30 10
    (by norm_num [scanCycleExecutes, evaluateOpportunity])

/-- C8 counterexample: a quote with `returnAmount = 100`, one hop and a
zero gas estimate passes `validateRouteResponse` and is returned by
`getRoute`, so the claimed positive-gas-estimate validation does not
exist. -/
theorem getRoute_gas_unchecked :
    getRoute (.ok ⟨"odos", 100, ["swap"], 0, 0⟩) "odos" =
      .ok ⟨"odos", 100, ["swap"], 0, 0⟩ ∧
    ¬ (0 < (⟨"odos", 100, ["swap"], 0, 0⟩ : RouteQuote).gasEstimate) := by
  constructor
  · rfl
  · decide

/-- C8 (amended): every quote returned by `getRoute` has
`returnAmount ≥ 100` and a non-empty hop list, and a quote violating either
of those is rejected by throwing; the gas estimate is not validated. -/
theorem getRoute_validation (fetched : Except String RouteQuote)
    (aggregator : String) :
    (∀ q, getRoute fetched aggregator = .ok q →
      100 ≤ q.returnAmount ∧ q.path ≠ []) ∧
    (∀ q : RouteQuote, q.returnAmount < 100 ∨ q.path = [] →
      ∃ e, getRoute (.ok q) aggregator = .error e) := by
  constructor
  · intro q h
    cases fetched with
    | error e => simp [getRoute] at h
    | ok r =>
      unfold getRoute validateRouteResponse at h
      by_cases h1 : r.returnAmount ≤ 0
      · simp [h1] at h
      · by_cases h2 : r.path.length = 0
        · simp [h1, h2] at h
        · by_cases h3 : r.returnAmount < 100
          · simp [h1, h2, h3] at h
          · simp [h1, h2, h3] at h
            subst h
            refine ⟨by omega, ?_⟩
            intro hnil
            rw [hnil] at h2
            exact h2 rfl
  · intro q hq
    unfold getRoute validateRouteResponse
    by_cases h1 : q.returnAmount ≤ 0
    · exact ⟨"Invalid return amount from " ++ aggregator, by simp [h1]⟩
    · rcases hq with hq | hq
      · by_cases h2 : q.path.length = 0
        · exact ⟨"Invalid path from " ++ aggregator, by simp [h1, h2]⟩
        · exact ⟨"Return amount too small from " ++ aggregator,
            by simp [h1, h2, hq]⟩
      · have h2 : q.path.length = 0 := by rw [hq]; rfl
        exact ⟨"Invalid path from " ++ aggregator, by simp [h1, h2]⟩

/-- Witness for C8: a valid quote (returnAmount 150) passes and satisfies
both checked conditions; a quote with returnAmount 99 is rejected. -/
theorem getRoute_validation_witness :
    (100 ≤ (⟨"odos", 150, ["swap"], 21000, 0⟩ : RouteQuote).returnAmount ∧
      (⟨"odos", 150, ["swap"], 21000, 0⟩ : RouteQuote).path ≠ []) ∧
    (∃ e, getRoute (.ok ⟨"odos", 99, ["swap"], 21000, 0⟩) "odos" =
      .error e) :=
  ⟨(getRoute_validation (.ok ⟨"odos", 150, ["swap"], 21000, 0⟩) "odos").1
      ⟨"odos", 150, ["swap"], 21000, 0⟩ rfl,
   (getRoute_validation (.ok ⟨"odos", 99, ["swap"], 21000, 0⟩) "odos").2
      ⟨"odos", 99, ["swap"], 21000, 0⟩ (Or.inl (by norm_num))⟩

lemma jsGet_simulate_profitPercent (gasPrice : ℤ) (opp : ScanOpportunity) :
    jsGet (simulateOpportunity gasPrice opp) "profitPercent" = none := by
  simp [simulateOpportunity, jsGet, List.find?]

lemma validateOpportunities_foldl (gasPrice : ℤ) :
    ∀ (opps : List ScanOpportunity) (acc : List ScanOpportunity),
      opps.foldl
        (fun validated opp =>
          let simulated := simulateOpportunity gasPrice opp
          if jsTruthy (jsGet simulated "success") &&
              jsGtNum (jsGet simulated "profitPercent") (5 / 100) then
            validated ++ [opp]
          else validated)
        acc = acc := by
  intro opps
  induction opps with
  | nil => intro acc; rfl
  | cons opp rest ih =>
    intro acc
    rw [List.foldl_cons]
    have hnone := jsGet_simulate_profitPercent gasPrice opp
    simp only [hnone]
    rw [show jsGtNum none (5 / 100) = false from rfl]
    simp only [Bool.and_false, if_false]
    exact ih acc

/-- C5: the scanner's candidate filter reads `simulated.profitPercent`, a
field the simulation result does not define (`simulateOpportunity` returns
`netProfitPercent`), so the comparison with 0.05 is always false and
`validateOpportunities` returns the empty list for every input — including
an opportunity whose simulation succeeds with `netProfitPercent` far above
0.05, which the claim says must be included. -/
theorem scanner_validation_always_empty :
    (∀ (gasPrice : ℤ) (opps : List ScanOpportunity),
      validateOpportunities gasPrice opps = []) ∧
    jsTruthy (jsGet (simulateOpportunity (10 ^ 9) cexC5Opp) "success")
      = true ∧
    jsGtNum (jsGet (simulateOpportunity (10 ^ 9) cexC5Opp) "netProfitPercent")
      (5 / 100) = true ∧
    validateOpportunities (10 ^ 9) [cexC5Opp] = [] := by
  have hempty : ∀ (gasPrice : ℤ) (opps : List ScanOpportunity),
      validateOpportunities gasPrice opps = [] := by
    intro gasPrice opps
    unfold validateOpportunities
    exact validateOpportunities_foldl gasPrice opps []
  refine ⟨hempty, ?_, ?_, hempty _ _⟩
  · simp only [simulateOpportunity, jsGet, jsTruthy, cexC5Opp, jsOrZ,
      List.find?, List.map, List.sum_cons, List.sum_nil]
    norm_num
  · simp only [simulateOpportunity, jsGet, jsGtNum, cexC5Opp, jsOrZ,
      List.find?, List.map, List.sum_cons, List.sum_nil]
    norm_num
    simp only [String.reduceEq, decide_False, decide_True]
    norm_num

lemma findOptimalPath_fields (routes : String → String → ℤ → List RouteCand)
    (fromToken toToken : String) (amount : ℤ) (s : ScanHop)
    (h : findOptimalPath routes fromToken toToken amount = some s) :
    s.fromToken = fromToken ∧ s.toToken = toToken := by
  unfold findOptimalPath at h
  split at h
  · exact absurd h (by simp)
  · injection h with h
    subst h
    exact ⟨rfl, rfl⟩

lemma buildStatisticalArbitrage_shape
    (routes : String → String → ℤ → List RouteCand) (price : String → ℚ)
    (pair : PairInfo) (zScore : ZSnapshot) (opp : StatOpportunity)
    (h : buildStatisticalArbitrage routes price pair zScore = some opp) :
    ∃ x1 x2, opp.path.head? = some x1 ∧ opp.path.getLast? = some x2 ∧
      x1.fromToken = (if zScore.value > 0 then pair.tokenA else pair.tokenB) ∧
      x2.toToken = (if zScore.value > 0 then pair.tokenA else pair.tokenB) := by
  unfold buildStatisticalArbitrage at h
  simp only [] at h
  by_cases hz : zScore.value > 0
  · simp only [hz, if_true, ite_true] at h ⊢
    split at h
    · exact absurd h (by simp)
    · split at h
      · exact absurd h (by simp)
      · split at h
        · exact absurd h (by simp)
        · split at h
          · exact absurd h (by simp)
          · injection h with h
            subst h
            exact ⟨_, _, rfl, rfl, rfl, rfl⟩
  · simp only [hz, if_false, ite_false] at h ⊢
    split at h
    · exact absurd h (by simp)
    · split at h
      · exact absurd h (by simp)
      · split at h
        · exact absurd h (by simp)
        · split at h
          · exact absurd h (by simp)
          · injection h with h
            subst h
            exact ⟨_, _, rfl, rfl, rfl, rfl⟩

lemma checkTriangularPath_shape
    (routes : String → String → ℤ → List RouteCand)
    (baseToken tokenA tokenB : TokenInfo) (opp : TriOpportunity)
    (h : checkTriangularPath routes baseToken tokenA tokenB = some opp) :
    ∃ x1 x2, opp.path.head? = some x1 ∧ opp.path.getLast? = some x2 ∧
      x1.fromToken = baseToken.address ∧ x2.toToken = baseToken.address := by
  unfold checkTriangularPath at h
  simp only [] at h
  split at h
  · exact absurd h (by simp)
  · rename_i path1 hp1
    split at h
    · exact absurd h (by simp)
    · rename_i path2 hp2
      split at h
      · exact absurd h (by simp)
      · rename_i path3 hp3
        split at h
        · injection h with h
          subst h
          obtain ⟨hf1, _⟩ := findOptimalPath_fields _ _ _ _ _ hp1
          obtain ⟨_, ht3⟩ := findOptimalPath_fields _ _ _ _ _ hp3
          exact ⟨path1, path3, rfl, rfl, hf1, ht3⟩
        · exact absurd h (by simp)

lemma dfs_closed (routes : String → String → ℤ → List RouteCand)
    (tokens : List TokenLite) (startToken : String) (minHops maxHops : Nat) :
    ∀ (fuel : Nat) (currentPath : List ScanHop) (currentToken : String)
      (currentAmount : ℤ) (hops : Nat),
      (currentPath = [] → currentToken = startToken) →
      (∀ x, currentPath.head? = some x → x.fromToken = startToken) →
      (∀ x, currentPath.getLast? = some x → x.toToken = currentToken) →
      ∀ fp, fp ∈ dfs routes tokens startToken minHops maxHops fuel
          currentPath currentToken currentAmount hops →
        ∃ x1 x2, fp.path.head? = some x1 ∧ fp.path.getLast? = some x2 ∧
          x1.fromToken = startToken ∧ x2.toToken = startToken := by
  intro fuel
  induction fuel with
  | zero =>
    intro currentPath currentToken currentAmount hops _ _ _ fp hmem
    simp [dfs] at hmem
  | succ fuel ih =>
    intro currentPath currentToken currentAmount hops hinv0 hinvh hinvl fp hmem
    rw [dfs] at hmem
    split at hmem
    · simp at hmem
    · split at hmem
      · rename_i hcond
        obtain ⟨hmin, hstart, hlen⟩ := hcond
        simp only [] at hmem
        split at hmem
        · simp at hmem
          subst hmem
          cases hcp : currentPath with
          | nil => rw [hcp] at hlen; simp at hlen
          | cons c cs =>
            cases hlast : (c :: cs).getLast? with
            | none => simp at hlast
            | some x2 =>
              refine ⟨c, x2, rfl, rfl, ?_, ?_⟩
              · exact hinvh c (by rw [hcp]; rfl)
              · rw [← hstart]
                exact hinvl x2 (by rw [hcp]; exact hlast)
        · simp at hmem
      · rw [List.mem_flatten] at hmem
        obtain ⟨l, hl, hfpl⟩ := hmem
        rw [List.mem_map] at hl
        obtain ⟨nextToken, hnt, rfl⟩ := hl
        cases hfo : findOptimalPath routes currentToken nextToken.address
            currentAmount with
        | none => rw [hfo] at hfpl; simp at hfpl
        | some nextStep =>
          rw [hfo] at hfpl
          obtain ⟨hsf, hst⟩ := findOptimalPath_fields _ _ _ _ _ hfo
          refine ih (currentPath ++ [nextStep]) nextToken.address
            nextStep.outputAmount (hops + 1) ?_ ?_ ?_ fp hfpl
          · intro hcontra
            exact absurd hcontra (by simp)
          · intro x hx
            cases currentPath with
            | nil =>
              simp only [List.nil_append, List.head?_cons] at hx
              have hxz : x = nextStep := (Option.some.inj hx).symm
              rw [hxz, hsf]
              exact hinv0 rfl
            | cons c cs =>
              simp only [List.cons_append, List.head?_cons] at hx
              have hxz : x = c := (Option.some.inj hx).symm
              rw [hxz]
              exact hinvh c rfl
          · intro x hx
            rw [List.getLast?_concat] at hx
            have hxz : x = nextStep := (Option.some.inj hx).symm
            rw [hxz, hst]

lemma findProfitablePaths_closed
    (routes : String → String → ℤ → List RouteCand) (startToken : String)
    (tokens : List TokenLite) (minHops maxHops : Nat) (fp : FoundPath)
    (h : fp ∈ findProfitablePaths routes startToken tokens minHops maxHops) :
    ∃ x1 x2, fp.path.head? = some x1 ∧ fp.path.getLast? = some x2 ∧
      x1.fromToken = startToken ∧ x2.toToken = startToken := by
  unfold findProfitablePaths at h
  rw [List.mem_mergeSort] at h
  exact dfs_closed routes tokens startToken minHops maxHops _ [] startToken
    _ 0 (fun _ => rfl) (fun x hx => by simp at hx) (fun x hx => by simp at hx)
    fp h

/-- Evaluation of `buildStatisticalArbitrage` on the concrete base-alt
scenario: with z = -2.5 the alt leg is sold, and the builder produces a
closed two-hop cycle anchored at `ALT`. -/
lemma cex_build_eval :
    buildStatisticalArbitrage cexRoutes cexPrice cexPair cexZ = some cexOpp := by
  unfold buildStatisticalArbitrage calculateOptimalTradeSize parseUnits18
    findOptimalPath getConvictionLevel cexRoutes cexPrice cexPair cexZ cexOpp
  norm_num [abs_of_nonneg, abs_of_nonpos, min_def]
  simp only [String.reduceEq, reduceIte, String.reduceAppend]
  norm_num

/-- C2 (amended): every opportunity built by the scanner's three builders
is a closed cycle — the first hop's `fromToken` equals the last hop's
`toToken`.  For triangular and multi-hop opportunities that token is the
starting base-token argument, but for statistical opportunities it is the
pair's sell leg (`tokenA` when z > 0, else `tokenB`), which need not be a
configured base token. -/
theorem scanner_closed_cycle :
    (∀ (routes : String → String → ℤ → List RouteCand)
      (price : String → ℚ) (pair : PairInfo) (zScore : ZSnapshot)
      (opp : StatOpportunity),
      buildStatisticalArbitrage routes price pair zScore = some opp →
      ∃ x1 x2, opp.path.head? = some x1 ∧ opp.path.getLast? = some x2 ∧
        x1.fromToken = x2.toToken ∧
        x1.fromToken =
          (if zScore.value > 0 then pair.tokenA else pair.tokenB)) ∧
    (∀ (routes : String → String → ℤ → List RouteCand)
      (baseToken tokenA tokenB : TokenInfo) (opp : TriOpportunity),
      checkTriangularPath routes baseToken tokenA tokenB = some opp →
      ∃ x1 x2, opp.path.head? = some x1 ∧ opp.path.getLast? = some x2 ∧
        x1.fromToken = x2.toToken ∧ x1.fromToken = baseToken.address) ∧
    (∀ (routes : String → String → ℤ → List RouteCand) (startToken : String)
      (tokens : List TokenLite) (minHops maxHops : Nat) (fp : FoundPath),
      fp ∈ findProfitablePaths routes startToken tokens minHops maxHops →
      ∃ x1 x2, fp.path.head? = some x1 ∧ fp.path.getLast? = some x2 ∧
        x1.fromToken = x2.toToken ∧ x1.fromToken = startToken) := by
  refine ⟨?_, ?_, ?_⟩
  · intro routes price pair zScore opp h
    obtain ⟨x1, x2, h1, h2, h3, h4⟩ :=
      buildStatisticalArbitrage_shape routes price pair zScore opp h
    exact ⟨x1, x2, h1, h2, by rw [h3, h4], h3⟩
  · intro routes baseToken tokenA tokenB opp h
    obtain ⟨x1, x2, h1, h2, h3, h4⟩ :=
      checkTriangularPath_shape routes baseToken tokenA tokenB opp h
    exact ⟨x1, x2, h1, h2, by rw [h3, h4], h3⟩
  · intro routes startToken tokens minHops maxHops fp h
    obtain ⟨x1, x2, h1, h2, h3, h4⟩ :=
      findProfitablePaths_closed routes startToken tokens minHops maxHops fp h
    exact ⟨x1, x2, h1, h2, by rw [h3, h4], h3⟩

/-- C2 counterexample: the base-alt pair `(B0, ALT)` is among the pairs the
Z-Score engine constructs; with z = -2.5 the statistical builder sells the
alt leg and produces an opportunity whose closed cycle starts and ends at
`ALT` — which is not a configured base token (not a flash-loan asset). -/
theorem stat_opportunity_cycles_at_alt_token :
    cexPair ∈ initializePairs cexBaseTokens cexTopTokens ∧
    buildStatisticalArbitrage cexRoutes cexPrice cexPair cexZ = some cexOpp ∧
    cexOpp.path.head?.map (·.fromToken) = some "ALT" ∧
    cexOpp.path.getLast?.map (·.toToken) = some "ALT" ∧
    "ALT" ∉ cexBaseTokens := by
  refine ⟨?_, cex_build_eval, rfl, rfl, ?_⟩
  · simp [initializePairs, baseBasePairs, baseAltPairs, cexBaseTokens,
      cexTopTokens, cexPair]
  · simp [cexBaseTokens]

/-- Witness for C2 at the concrete scenario: the statistical conjunct
applied to the concrete builder run. -/
theorem scanner_closed_cycle_witness :
    ∃ x1 x2, cexOpp.path.head? = some x1 ∧ cexOpp.path.getLast? = some x2 ∧
      x1.fromToken = x2.toToken ∧
      x1.fromToken =
        (if cexZ.value > 0 then cexPair.tokenA else cexPair.tokenB) :=
  scanner_closed_cycle.1 cexRoutes cexPrice cexPair cexZ cexOpp cex_build_eval

end MyNilla
